import Mathlib

/- Shallow embedding of the flopy grid / spatial-reference subsystem:
   src/flopy/grid/modelgrid.py and src/flopy/grid/reference.py.
   Machine floats are modelled by real numbers; Python exceptions by
   an explicit error type carried in Except. -/

namespace Flopy

/-- Python exception values that the embedded code can raise. -/
inductive PyErr
  | typeError (msg : String)
  | notImplementedError (msg : String)
  | mfGridException (msg : String)
  | valueError (msg : String)
deriving DecidableEq, Repr

namespace modelgrid

/-- modelgrid.py GridType enumeration. -/
inductive GridType
  | structured
  | layered_vertex
  | unlayered_vertex
deriving DecidableEq, Repr

/-- In modelgrid.py, `ModelGrid.__init__` stores the GridType enum *member* in
the instance attribute `self.grid_type`, and every dispatch site evaluates
`self.grid_type()`.  In Python, calling an Enum member (an instance of the
Enum class, which defines no `__call__`) raises
`TypeError: GridType object is not callable`.  This function embeds that
call expression. -/
def callGridType (_g : GridType) : Except PyErr GridType :=
  Except.error (PyErr.typeError "GridType object is not callable")

/-- modelgrid.py `MFGridException.__init__` prefixes the error text. -/
def mfGridExceptionMsg (error : String) : String :=
  "MFGridException: " ++ error

/-- modelgrid.py `StructuredModelGrid`.  `top`, `botm` and `idomain` are
arbitrary array-like arguments in the source; only the number of entries of
`botm` (its first axis, one entry per layer) is ever read by the embedded
methods, so layers are modelled as real scalars.  The `sr`/`simulation_time`
arguments and the plotting/export stubs are not modelled (no claim reads
them). -/
structure StructuredModelGrid where
  delc : List ℝ
  delr : List ℝ
  top : ℝ
  botm : List ℝ
  idomain : ℤ
  model_name : String
  nlay : ℕ
  nrow : ℕ
  ncol : ℕ


namespace StructuredModelGrid

/-- modelgrid.py `StructuredModelGrid.__init__` (lines 557-568):
stores the arrays and sets nlay = len(botm), nrow = len(delr),
ncol = len(delc). -/
def init (delc delr : List ℝ) (top : ℝ) (botm : List ℝ) (idomain : ℤ) :
    StructuredModelGrid :=
  { delc := delc
    delr := delr
    top := top
    botm := botm
    idomain := idomain
    model_name := ""
    nlay := botm.length
    nrow := delr.length
    ncol := delc.length }

/-- modelgrid.py `StructuredModelGrid.num_cells_per_layer`. -/
def num_cells_per_layer (g : StructuredModelGrid) (active_only : Bool) :
    Except PyErr ℕ :=
  if active_only then
    Except.error (PyErr.notImplementedError "this feature is not yet implemented")
  else
    Except.ok (g.nrow * g.ncol)

/-- modelgrid.py `StructuredModelGrid.num_cells`. -/
def num_cells (g : StructuredModelGrid) (active_only : Bool) :
    Except PyErr ℕ :=
  if active_only then
    Except.error (PyErr.notImplementedError "this feature is not yet implemented")
  else
    Except.ok (g.nrow * g.ncol * g.nlay)

end StructuredModelGrid

/-- modelgrid.py `VertexModelGrid`.  `ncpl` is passed only for layered

grids; the unlayered constructor leaves it None, and no embedded method
reads it in that case, so None is modelled by the empty list. -/
structure VertexModelGrid where
  top : ℝ
  botm : List ℝ
  idomain : ℤ
  _vertices : List (ℝ × ℝ)
  cell2d : List (List ℕ)
  nlay : Option ℕ
  ncpl : List ℕ
  model_name : String
  grid_type : GridType


namespace VertexModelGrid

/-- modelgrid.py `VertexModelGrid.__init__` (lines 637-650):
grid_type is unlayered_vertex when nlay is None, else layered_vertex. -/
def init (top : ℝ) (botm : List ℝ) (idomain : ℤ) (vertices : List (ℝ × ℝ))
    (cell2d : List (List ℕ)) (nlay : Option ℕ) (ncpl : List ℕ) :
    VertexModelGrid :=
  { top := top
    botm := botm
    idomain := idomain
    _vertices := vertices
    cell2d := cell2d
    nlay := nlay
    ncpl := ncpl
    model_name := ""
    grid_type := match nlay with
      | none => GridType.unlayered_vertex
      | some _ => GridType.layered_vertex }

/-- modelgrid.py `VertexModelGrid.num_cells_per_layer` (lines 659-669).
The body dispatches on `self.grid_type()`; the intended branches raise
NotImplementedError (layered) or MFGridException naming the model
(unlayered), but the dispatch expression itself raises TypeError first.
A fall-through (neither branch taken) returns Python None, modelled as
`Except.ok none`. -/
def num_cells_per_layer (g : VertexModelGrid) (_active_only : Bool) :
    Except PyErr (Option ℕ) := do
  let gt ← callGridType g.grid_type
  if gt = GridType.layered_vertex then
    Except.error (PyErr.notImplementedError "this feature is not yet implemented")
  else if gt = GridType.unlayered_vertex then
    Except.error (PyErr.mfGridException (mfGridExceptionMsg
      ("ERROR: Model \"" ++ g.model_name ++ "\" is unstructured and does not have a consistant number of cells per layer.")))
  else
    Except.ok none

/-- modelgrid.py `VertexModelGrid.num_cells` (lines 671-683).  With
active_only=False the body dispatches on `self.grid_type()` (TypeError, see
`callGridType`); the intended branches sum ncpl (layered) or raise
NotImplementedError (unlayered). -/
def num_cells (g : VertexModelGrid) (active_only : Bool) :
    Except PyErr (Option ℕ) :=
  if active_only then
    Except.error (PyErr.notImplementedError "this feature is not yet implemented")
  else do
    let gt ← callGridType g.grid_type
    if gt = GridType.layered_vertex then
      Except.ok (some g.ncpl.sum)
    else if gt = GridType.unlayered_vertex then
      Except.error (PyErr.notImplementedError "this feature is not yet implemented")
    else
      Except.ok none

end VertexModelGrid

end modelgrid

namespace reference

/-- reference.py lenuni_values: model length-unit flag, ints 0-3.  Any other
int would raise KeyError in `model_length_units`; the embedding restricts the
field to the four table entries. -/
inductive Lenuni
  | undefined
  | feet
  | meters
  | centimeters
deriving DecidableEq

/-- Supported spatial-reference units (reference.py `supported_units`).
The units setter and the `units` property assert membership in this set;
the embedding enforces it by type. -/
inductive Units
  | feet
  | meters
deriving DecidableEq

/-- reference.py `origin_loc`, the declared origin corner. -/
inductive OriginLoc
  | ul
  | ll
deriving DecidableEq

/-- Python's substring test `needle in hay`, on character lists. -/
def containsSub (needle hay : List Char) : Bool :=
  match hay with
  | [] => needle.isEmpty
  | _ :: t => needle.isPrefixOf hay || containsSub needle t

/-- Modelled from the spec: reference.py imports `StructuredModelGrid` from
flopy/grid/structuredmodelgrid.py, which is not under src/.  Per spec section 3
and section 4.2 the grid owns ordered positive cell widths `delr` (one per
column) and `delc` (one per row), and its local cell-edge coordinate grids are
the cumulative sums of the widths, with row 0 at the north edge (y decreasing
with row index from the total north-south extent down to 0). -/
structure SMGrid where
  delc : List ℝ
  delr : List ℝ

namespace SMGrid

/-- Modelled from the spec: number of rows is the number of `delc` entries. -/
def nrow (g : SMGrid) : ℕ := g.delc.length

/-- Modelled from the spec: number of columns is the number of `delr`
entries. -/
def ncol (g : SMGrid) : ℕ := g.delr.length

/-- Modelled from the spec: local x coordinate of cell-edge grid node (i, j)
is the cumulative width of the first j columns. -/
def xedges (g : SMGrid) : ℕ → ℕ → ℝ :=
  fun _ j => (g.delr.take j).sum

/-- Modelled from the spec: local y coordinate of cell-edge grid node (i, j);
row 0 is the north edge, so y runs from the total extent down to 0. -/
def yedges (g : SMGrid) : ℕ → ℕ → ℝ :=
  fun i _ => g.delc.sum - (g.delc.take i).sum

/-- Modelled from the spec: local x coordinate of the center of cell
(i, j), halfway across column j. -/
noncomputable def xcenters (g : SMGrid) : ℕ → ℕ → ℝ :=
  fun _ j => (g.delr.take j).sum + g.delr.getD j 0 / 2

/-- Modelled from the spec: local y coordinate of the center of cell
(i, j), halfway down row i from the north edge. -/
noncomputable def ycenters (g : SMGrid) : ℕ → ℕ → ℝ :=
  fun i _ => g.delc.sum - (g.delc.take i).sum - g.delc.getD i 0 / 2

end SMGrid

/-- reference.py `SpatialReference` state.  Fields with a leading underscore
are the private backing fields written by `__setattr__` /
`set_spatialreference`; the corner fields hold 0.0 when never supplied
(`set_spatialreference` stores `xul if xul is not None else 0.`).  The last
six fields are the lazily cached derived families, each None until first
computed.  The `crs`/`wkt` CRS-metadata objects are not modelled (no claim
reads them). -/
structure SpatialReference where
  modelgrid : SMGrid
  _lenuni : Lenuni
  _proj4_str : Option String
  _epsg : Option ℤ
  prj : Option String
  _units : Option Units
  _length_multiplier : Option ℝ
  rotation : ℝ
  origin_loc : OriginLoc
  _xul : ℝ
  _yul : ℝ
  _xll : ℝ
  _yll : ℝ
  _yedge : List ℝ
  _xedges : Option (ℕ → ℕ → ℝ)
  _yedges : Option (ℕ → ℕ → ℝ)
  _xcenters : Option (ℕ → ℕ → ℝ)
  _ycenters : Option (ℕ → ℕ → ℝ)
  _vertices : Option (List (List (ℝ × ℝ)))
  _gridlines : Option (List ((ℝ × ℝ) × (ℝ × ℝ)))

namespace SpatialReference

/-- reference.py `proj4_str` property (lines 241-258), value part: if the
stored string mentions epsg without init, prepend "+init="; if no string is
stored but an epsg code is, derive "+init=epsg:code".  (The property also
writes `_epsg` as a side effect when the string names an epsg code; no
embedded caller observes that write, since the only mutating caller, the
proj4_str setter, overwrites `_epsg` with None immediately afterwards.) -/
def proj4_str (sr : SpatialReference) : Option String :=
  match sr._proj4_str with
  | some s =>
    if containsSub "epsg".toList s.toLower.toList then
      if containsSub "init".toList s.toLower.toList then some s
      else some ("+init=" ++ s)
    else some s
  | none =>
    match sr._epsg with
    | some e => some ("+init=epsg:" ++ toString e)
    | none => none

/-- reference.py `_parse_units_from_proj4` (lines 293-321).  When the proj4
string mentions EPSG (upper-cased check) the source resolves it through
pyproj inside a bare try/except; pyproj is an optional dependency and any
failure (including its absence) yields None, which is how that branch is
modelled.  Otherwise the string itself is scanned for unit tokens. -/
def parse_units_from_proj4 (sr : SpatialReference) : Option Units :=
  match sr.proj4_str with
  | none => none
  | some s =>
    if containsSub "epsg".toList s.toLower.toList then none
    else if containsSub "units=m".toList s.toList then some Units.meters
    else if (containsSub "units=ft".toList s.toList
        || containsSub "units=us-ft".toList s.toList
        || containsSub "to_meters:0.3048".toList s.toList) then some Units.feet
    else none

/-- reference.py `units` property (lines 323-333): explicit units if set,
else units parsed from the proj4 string, else the meters default. -/
def units (sr : SpatialReference) : Units :=
  match sr._units with
  | some u => u
  | none => (parse_units_from_proj4 sr).getD Units.meters

/-- reference.py `model_length_units` property: lenuni_text lookup. -/
def model_length_units (sr : SpatialReference) : Lenuni := sr._lenuni

/-- reference.py `length_multiplier` property (lines 336-360): the explicit
multiplier if set, else derived from model length units and reference
units. -/
noncomputable def length_multiplier (sr : SpatialReference) : ℝ :=
  match sr._length_multiplier with
  | some lm => lm
  | none =>
    match sr.model_length_units with
    | Lenuni.feet => if sr.units = Units.meters then 0.3048 else 1
    | Lenuni.meters => if sr.units = Units.feet then 1 / 0.3048 else 1
    | Lenuni.centimeters => if sr.units = Units.meters then 1 / 100 else 1 / 30.48
    | Lenuni.undefined => 1

/-- reference.py `theta` property (lines 693-695). -/
noncomputable def theta (sr : SpatialReference) : ℝ :=
  -sr.rotation * Real.pi / 180

/-- reference.py `xll` property (lines 119-127). -/
noncomputable def xll (sr : SpatialReference) : ℝ :=
  match sr.origin_loc with
  | OriginLoc.ll => sr._xll
  | OriginLoc.ul =>
    sr._xul - Real.sin sr.theta * sr._yedge.headD 0 * sr.length_multiplier

/-- reference.py `yll` property (lines 129-137). -/
noncomputable def yll (sr : SpatialReference) : ℝ :=
  match sr.origin_loc with
  | OriginLoc.ll => sr._yll
  | OriginLoc.ul =>
    sr._yul - Real.cos sr.theta * sr._yedge.headD 0 * sr.length_multiplier

/-- reference.py `xul` property (lines 139-148). -/
noncomputable def xul (sr : SpatialReference) : ℝ :=
  match sr.origin_loc with
  | OriginLoc.ll =>
    sr._xll + Real.sin sr.theta * sr._yedge.headD 0 * sr.length_multiplier
  | OriginLoc.ul => sr._xul

/-- reference.py `yul` property (lines 150-160). -/
noncomputable def yul (sr : SpatialReference) : ℝ :=
  match sr.origin_loc with
  | OriginLoc.ll =>
    sr._yll + Real.cos sr.theta * sr._yedge.headD 0 * sr.length_multiplier
  | OriginLoc.ul => sr._yul

end SpatialReference

/-- reference.py `SpatialReference.rotate` (lines 697-713): rotation about an
arbitrary origin, theta in degrees, positive counter-clockwise. -/
noncomputable def rotate (x y theta xorigin yorigin : ℝ) : ℝ × ℝ :=
  let t := theta * Real.pi / 180
  (xorigin + Real.cos t * (x - xorigin) - Real.sin t * (y - yorigin),
   yorigin + Real.sin t * (x - xorigin) + Real.cos t * (y - yorigin))

namespace SpatialReference

/-- reference.py `transform` (lines 715-740), scalar case: forward applies
scale, offset, then rotation about the lower-left corner; inverse applies
the opposite rotation, subtracts the offset and divides out the scale. -/
noncomputable def transform (sr : SpatialReference) (x y : ℝ) (inverse : Bool) : ℝ × ℝ :=
  if !inverse then
    let xs := x * sr.length_multiplier
    let ys := y * sr.length_multiplier
    let xt := xs + sr.xll
    let yt := ys + sr.yll
    rotate xt yt sr.rotation sr.xll sr.yll
  else
    let r := rotate x y (-sr.rotation) sr.xll sr.yll
    ((r.1 - sr.xll) / sr.length_multiplier,
     (r.2 - sr.yll) / sr.length_multiplier)

end SpatialReference

/-- reference.py `epsgRef`: the local persistent key-value store of
projection text keyed by epsg code (a generated python file of
`prj[code] = text` lines, executed in order, so the last entry for a code
wins).  A missing store file is created empty on first use, which is
observationally the empty entry list. -/
structure EpsgDB where
  entries : List (ℤ × String)

namespace EpsgDB

/-- `prj.get(epsg)`: the last entry recorded for the code, if any. -/
def lookup (db : EpsgDB) (epsg : ℤ) : Option String :=
  (db.entries.reverse.find? (fun p => p.1 == epsg)).map (fun p => p.2)

/-- reference.py `epsgRef.add`: append an entry line to the store. -/
def add (db : EpsgDB) (epsg : ℤ) (prj : String) : EpsgDB :=
  ⟨db.entries ++ [(epsg, prj)]⟩

end EpsgDB

/-- `result.replace("\n", "")` in `get_spatialreference`. -/
def stripNewlines (s : String) : String :=
  String.mk (s.toList.filter (fun c => c ≠ '\n'))

/-- reference.py `get_spatialreference` (lines 1053-1093): query the remote
service for categories "epsg" then "esri", taking the first hit; strip
newlines from a hit; on a total miss return the "+init=epsg:code" fallback
only when the requested text format is "epsg" (otherwise print a message and
return None).  The network is modelled by the oracle `fetch category epsg
text`, an explicit not-found/unreachable signal being `none`. -/
def get_spatialreference (fetch : String → ℤ → String → Option String)
    (epsg : ℤ) (text : String) : Option String :=
  let result := match fetch "epsg" epsg text with
    | some r => some r
    | none => fetch "esri" epsg text
  match result with
  | some r => some (stripNewlines r)
  | none => if text == "epsg" then some ("+init=epsg:" ++ toString epsg) else none

/-- reference.py `getproj4` (lines 1096-1110). -/
def getproj4 (fetch : String → ℤ → String → Option String) (epsg : ℤ) :
    Option String :=
  get_spatialreference fetch epsg "proj4"

/-- Result of `getprj`: the returned text, whether the remote service was
queried, and the local store after the call. -/
structure GetPrjResult where
  prjtext : Option String
  remoteCalled : Bool
  db : EpsgDB

/-- reference.py `getprj` (lines 1022-1050): consult the local store first;
only on a miss query the remote service; append any non-None result (from
either source) back to the local store when addlocalreference is set. -/
def getprj (fetch : String → ℤ → String → Option String) (db : EpsgDB)
    (epsg : ℤ) (addlocalreference : Bool) (text : String) : GetPrjResult :=
  let cached := db.lookup epsg
  let wktstr : Option String := match cached with
    | some w => some w
    | none => get_spatialreference fetch epsg text
  let db1 := match wktstr with
    | some w => if addlocalreference then db.add epsg w else db
    | none => db
  ⟨wktstr, cached.isNone, db1⟩

/-- The attribute keys intercepted by reference.py `__setattr__`
(lines 496-559), with the assigned value.  Every one of these branches ends
with `reset = True`; assignments to any other attribute fall through to the
plain object setter with `reset = False` and are modelled directly as record
updates where they occur. -/
inductive Attr
  | xul (v : ℝ)
  | yul (v : ℝ)
  | xll (v : ℝ)
  | yll (v : ℝ)
  | length_multiplier (v : ℝ)
  | rotation (v : ℝ)
  | lenuni (v : Lenuni)
  | units (v : Units)
  | proj4_str (v : Option String)
  | epsg (v : Option ℤ)
  | prj (v : Option String)

namespace SpatialReference

/-- reference.py `_reset` (lines 566-573): drop every cached derived
family. -/
def _reset (sr : SpatialReference) : SpatialReference :=
  { sr with
    _xedges := none
    _yedges := none
    _ycenters := none
    _xcenters := none
    _vertices := none
    _gridlines := none }

/-- reference.py `__setattr__` (lines 496-559) for the intercepted keys.
Each branch writes its backing field (the corner keys also record the origin
convention, proj4/epsg also rederive units and the sibling CRS field, epsg
resolving proj4 text through the remote oracle `fetch`) and then applies
`_reset`. -/
def setattr (fetch : String → ℤ → String → Option String)
    (sr : SpatialReference) (a : Attr) : SpatialReference :=
  match a with
  | Attr.xul v => _reset { sr with _xul := v, origin_loc := OriginLoc.ul }
  | Attr.yul v => _reset { sr with _yul := v, origin_loc := OriginLoc.ul }
  | Attr.xll v => _reset { sr with _xll := v, origin_loc := OriginLoc.ll }
  | Attr.yll v => _reset { sr with _yll := v, origin_loc := OriginLoc.ll }
  | Attr.length_multiplier v => _reset { sr with _length_multiplier := some v }
  | Attr.rotation v => _reset { sr with rotation := v }
  | Attr.lenuni v => _reset { sr with _lenuni := v }
  | Attr.units v => _reset { sr with _units := some v }
  | Attr.proj4_str v =>
    let sr1 := { sr with _proj4_str := v }
    let sr2 := match parse_units_from_proj4 sr1 with
      | some u => { sr1 with _units := some u }
      | none => sr1
    _reset { sr2 with _epsg := none }
  | Attr.epsg v =>
    _reset { sr with
      _epsg := v
      _units := none
      _proj4_str := match v with
        | some e => getproj4 fetch e
        | none => none }
  | Attr.prj v => _reset { sr with prj := v }

/-- `np.add.accumulate`: running partial sums (one entry per element). -/
def accumulate (l : List ℝ) : List ℝ :=
  (List.range l.length).map (fun i => (l.take (i + 1)).sum)

/-- reference.py `set_spatialreference` (lines 641-678): reject a ul/ll
conflict on either axis; choose the origin convention (defaulting the upper
left corner to (0, sum delc) when no corner was supplied); assign rotation
through `__setattr__`; store the corner backing fields (None becoming 0.0)
and the cumulative north-south edge array `_yedge`. -/
def set_spatialreference (fetch : String → ℤ → String → Option String)
    (sr : SpatialReference) (delc : List ℝ) (xul yul xll yll : Option ℝ)
    (rotation : ℝ) : Except PyErr SpatialReference :=
  if xul.isSome && xll.isSome then
    Except.error (PyErr.valueError
      "Both xul and xll entered. Please enter either xul, yul or xll, yll.")
  else if yul.isSome && yll.isSome then
    Except.error (PyErr.valueError
      "Both yul and yll entered. Please enter either xul, yul or xll, yll.")
  else
    let choice : OriginLoc × Option ℝ × Option ℝ :=
      if xul.isNone && yul.isNone && xll.isNone && yll.isNone then
        (OriginLoc.ul, some (0 : ℝ), some delc.sum)
      else if xll.isSome then (OriginLoc.ll, xul, yul)
      else (OriginLoc.ul, xul, yul)
    let sr1 := { sr with origin_loc := choice.1 }
    let sr2 := setattr fetch sr1 (Attr.rotation rotation)
    Except.ok { sr2 with
      _xll := xll.getD 0
      _yll := yll.getD 0
      _xul := choice.2.1.getD 0
      _yul := choice.2.2.getD 0
      _yedge := delc.sum :: (accumulate delc).map (fun c => delc.sum - c) }

/-- reference.py `_set_xyedges` x half: the model cell-edge grid passed
through the forward transform (numpy broadcasting is pointwise). -/
noncomputable def computed_xedges (sr : SpatialReference) : ℕ → ℕ → ℝ :=
  fun i j =>
    (transform sr (sr.modelgrid.xedges i j) (sr.modelgrid.yedges i j) false).1

/-- reference.py `_set_xyedges` y half. -/
noncomputable def computed_yedges (sr : SpatialReference) : ℕ → ℕ → ℝ :=
  fun i j =>
    (transform sr (sr.modelgrid.xedges i j) (sr.modelgrid.yedges i j) false).2

/-- reference.py `xedges` property: the cached array if populated, else the
value `_set_xyedges` would store. -/
noncomputable def xedges (sr : SpatialReference) : ℕ → ℕ → ℝ :=
  sr._xedges.getD (computed_xedges sr)

/-- reference.py `yedges` property. -/
noncomputable def yedges (sr : SpatialReference) : ℕ → ℕ → ℝ :=
  sr._yedges.getD (computed_yedges sr)

end SpatialReference

/-- reference.py `get_vertices` (lines 222-235), batched case: `pts` is the
list of five corner layers, each evaluated over the whole cell sequence;
`np.array(pts).transpose([2, 0, 1])` then regroups them into one
five-point ring per cell. -/
noncomputable def get_vertices_batched (xg yg : ℕ → ℕ → ℝ) (ii jj : List ℕ) :
    List (List (ℝ × ℝ)) :=
  let cells := ii.zip jj
  let pts : List (List (ℝ × ℝ)) :=
    [cells.map (fun c => (xg c.1 c.2, yg c.1 c.2)),
     cells.map (fun c => (xg (c.1 + 1) c.2, yg (c.1 + 1) c.2)),
     cells.map (fun c => (xg (c.1 + 1) (c.2 + 1), yg (c.1 + 1) (c.2 + 1))),
     cells.map (fun c => (xg c.1 (c.2 + 1), yg c.1 (c.2 + 1))),
     cells.map (fun c => (xg c.1 c.2, yg c.1 c.2))]
  (List.range cells.length).map (fun k => pts.filterMap (fun row => row.get? k))

/-- `np.meshgrid(range(ncol), range(nrow))` second output, ravelled
(row-major): the row index of every cell. -/
def meshgrid_ii (nrow ncol : ℕ) : List ℕ :=
  (List.range nrow).flatMap (fun i => List.replicate ncol i)

/-- `np.meshgrid(range(ncol), range(nrow))` first output, ravelled
(row-major): the column index of every cell. -/
def meshgrid_jj (nrow ncol : ℕ) : List ℕ :=
  (List.range nrow).flatMap (fun _ => List.range ncol)

namespace SpatialReference

/-- reference.py `_set_vertices` (lines 208-212): vertex rings for the whole
grid, row-major. -/
noncomputable def computed_vertices (sr : SpatialReference) :
    List (List (ℝ × ℝ)) :=
  get_vertices_batched sr.xedges sr.yedges
    (meshgrid_ii sr.modelgrid.nrow sr.modelgrid.ncol)
    (meshgrid_jj sr.modelgrid.nrow sr.modelgrid.ncol)

/-- reference.py `vertices` property (lines 186-191): the cached list if
populated, else the value `_set_vertices` would store. -/
noncomputable def vertices (sr : SpatialReference) : List (List (ℝ × ℝ)) :=
  sr._vertices.getD (computed_vertices sr)

end SpatialReference

/-- A heap of numpy arrays: Python variables hold references (indices into
the heap), in-place numpy operations overwrite the referenced entry, and
allocations append a fresh entry. -/
abbrev Heap := List (List ℝ)

namespace SpatialReference

/-- reference.py `transform` (lines 715-740), non-scalar case, as heap
operations.  The caller passes references `xr`, `yr` to arrays on the heap
`h`.  The body first rebinds x and y to fresh copies (`np.array(x)` for list
input, `x.copy()` for array input - both allocate); the in-place `*=`, `+=`,
`-=`, `/=` operators then overwrite only those copies, and `rotate` returns
freshly allocated result arrays.  Returns the final heap and references to
the result arrays. -/
noncomputable def transform_arrays (sr : SpatialReference) (inverse : Bool)
    (h : Heap) (xr yr : ℕ) : Heap × ℕ × ℕ :=
  let h1 := h ++ [h.getD xr [], h.getD yr []]
  let xr1 := h.length
  let yr1 := h.length + 1
  if !inverse then
    let h2 := h1.set xr1 ((h1.getD xr1 []).map (fun v => v * sr.length_multiplier))
    let h3 := h2.set yr1 ((h2.getD yr1 []).map (fun v => v * sr.length_multiplier))
    let h4 := h3.set xr1 ((h3.getD xr1 []).map (fun v => v + sr.xll))
    let h5 := h4.set yr1 ((h4.getD yr1 []).map (fun v => v + sr.yll))
    let xs := h5.getD xr1 []
    let ys := h5.getD yr1 []
    let rx := List.zipWith (fun a b => (rotate a b sr.rotation sr.xll sr.yll).1) xs ys
    let ry := List.zipWith (fun a b => (rotate a b sr.rotation sr.xll sr.yll).2) xs ys
    (h5 ++ [rx, ry], h5.length, h5.length + 1)
  else
    let xs := h1.getD xr1 []
    let ys := h1.getD yr1 []
    let rx := List.zipWith (fun a b => (rotate a b (-sr.rotation) sr.xll sr.yll).1) xs ys
    let ry := List.zipWith (fun a b => (rotate a b (-sr.rotation) sr.xll sr.yll).2) xs ys
    let h2 := h1 ++ [rx, ry]
    let xr2 := h1.length
    let yr2 := h1.length + 1
    let h3 := h2.set xr2 ((h2.getD xr2 []).map (fun v => v - sr.xll))
    let h4 := h3.set yr2 ((h3.getD yr2 []).map (fun v => v - sr.yll))
    let h5 := h4.set xr2 ((h4.getD xr2 []).map (fun v => v / sr.length_multiplier))
    (h5.set yr2 ((h5.getD yr2 []).map (fun v => v / sr.length_multiplier)), xr2, yr2)

end SpatialReference

end reference

section ModelgridClaims

open Flopy.modelgrid

/-- An unlayered vertex grid (nlay absent) with two cell2d entries, used as
concrete input for the vertex-grid claims. -/
def gridUnlayered : VertexModelGrid :=
  VertexModelGrid.init 0 [0] 1 [(0, 0), (1, 0), (1, 1), (0, 1)]
    [[0, 1, 2], [2, 3, 0]] none []

/-- A layered vertex grid with ncpl = [2, 3]. -/
def gridLayered : VertexModelGrid :=
  VertexModelGrid.init 0 [0, 0] 1 [(0, 0), (1, 0), (1, 1), (0, 1)]
    [[0, 1, 2], [2, 3, 0]] (some 2) [2, 3]

/-- CLAIM C3: the claim states that a StructuredModelGrid constructed from
delc, delr, top, botm, idomain satisfies nlay = len(botm), nrow = len(delc)
and ncol = len(delr).  On the concrete input delc = [1], delr = [1, 2] the
constructor instead yields nrow = len(delr) = 2 and ncol = len(delc) = 1:
the row and column counts are swapped relative to the claim (and to the
repository's own convention, e.g. the tests construct delc with nrow entries
and reference.py derives the north-south extent from delc).  The nlay part
holds. -/
theorem structured_init_swaps_row_col :
    (StructuredModelGrid.init [1] [1, 2] 0 [0] 1).nlay =
      (StructuredModelGrid.init [1] [1, 2] 0 [0] 1).botm.length ∧
    (StructuredModelGrid.init [1] [1, 2] 0 [0] 1).nrow = 2 ∧
    (StructuredModelGrid.init [1] [1, 2] 0 [0] 1).ncol = 1 ∧
    (StructuredModelGrid.init [1] [1, 2] 0 [0] 1).nrow ≠
      (StructuredModelGrid.init [1] [1, 2] 0 [0] 1).delc.length ∧
    (StructuredModelGrid.init [1] [1, 2] 0 [0] 1).ncol ≠
      (StructuredModelGrid.init [1] [1, 2] 0 [0] 1).delr.length := by
  refine ⟨rfl, rfl, rfl, ?_, ?_⟩ <;> simp [StructuredModelGrid.init]

/-- CLAIM C4, counterexample: the claim states that num_cells(active_only
=False) on an unlayered vertex grid returns the count of cell2d entries.
On `gridUnlayered` (two cell2d entries) the call does not return 2: the
dispatch `self.grid_type()` raises TypeError. -/
theorem num_cells_unlayered_not_cell2d_count :
    gridUnlayered.cell2d.length = 2 ∧
    VertexModelGrid.num_cells gridUnlayered false ≠ Except.ok (some 2) := by
  refine ⟨rfl, ?_⟩
  have hval : VertexModelGrid.num_cells gridUnlayered false =
      Except.error (PyErr.typeError "GridType object is not callable") := rfl
  simp [hval]

/-- CLAIM C4, amended: num_cells(active_only=False) returns
nrow * ncol * nlay for a structured grid; for every vertex grid (layered or
unlayered) it raises TypeError, because the stored GridType enum member is
called as a function before any count is computed (by the code's intent the
layered case would return the sum of ncpl and the unlayered case would raise
NotImplementedError, but neither point is reached). -/
theorem num_cells_amended :
    (∀ g : StructuredModelGrid,
      StructuredModelGrid.num_cells g false =
        Except.ok (g.nrow * g.ncol * g.nlay)) ∧
    (∀ g : VertexModelGrid,
      VertexModelGrid.num_cells g false =
        Except.error (PyErr.typeError "GridType object is not callable")) := by
  constructor
  · intro g
    rfl
  · intro g
    rfl

/-- CLAIM C7: the claim states that num_cells_per_layer on an unlayered
vertex grid raises the model-grid domain error (MFGridException) naming the
grid.  The code instead raises TypeError: the branch dispatch
`self.grid_type()` calls the stored GridType enum member, so the
MFGridException construction (whose message does name the model) is never
reached.  Evaluation of the code at the failing input: -/
theorem num_cells_per_layer_unlayered_raises_type_error :
    VertexModelGrid.num_cells_per_layer gridUnlayered false =
      Except.error (PyErr.typeError "GridType object is not callable") := by
  rfl

end ModelgridClaims

section ReferenceClaims

open Flopy.reference

/-- A remote-lookup oracle representing no network connectivity. -/
def fetch0 : String → ℤ → String → Option String := fun _ _ _ => none

/-- The SpatialReference state produced by
SpatialReference(delc=[1,1], delr=[1,1], xll=0, yll=0, rotation=0) with the
default unit settings (lenuni=2, units/proj4/epsg/prj unset, no explicit
length multiplier): a 2 by 2 grid of unit cells anchored at the origin. -/
noncomputable def sr2x2 : SpatialReference :=
  { modelgrid := ⟨[1, 1], [1, 1]⟩
    _lenuni := Lenuni.meters
    _proj4_str := none
    _epsg := none
    prj := none
    _units := none
    _length_multiplier := none
    rotation := 0
    origin_loc := OriginLoc.ll
    _xul := 0
    _yul := 0
    _xll := 0
    _yll := 0
    _yedge := [2, 1, 0]
    _xedges := none
    _yedges := none
    _xcenters := none
    _ycenters := none
    _vertices := none
    _gridlines := none }

/-- CLAIM C2: assigning any of the intercepted attributes (xul, yul, xll,
yll, rotation, lenuni, length_multiplier, units, proj4_str, epsg, prj)
through `__setattr__` leaves every cached derived family (cell-center x/y,
cell-edge x/y, vertices, grid lines) reset to None, whatever state the
caches were in before the assignment. -/
theorem setattr_resets_all_caches :
    ∀ (fetch : String → ℤ → String → Option String)
      (sr : SpatialReference) (a : Attr),
      (SpatialReference.setattr fetch sr a)._xcenters = none ∧
      (SpatialReference.setattr fetch sr a)._ycenters = none ∧
      (SpatialReference.setattr fetch sr a)._xedges = none ∧
      (SpatialReference.setattr fetch sr a)._yedges = none ∧
      (SpatialReference.setattr fetch sr a)._vertices = none ∧
      (SpatialReference.setattr fetch sr a)._gridlines = none := by
  intro fetch sr a
  cases a <;>
    simp [SpatialReference.setattr, SpatialReference._reset]

/-- CLAIM C5: set_spatialreference rejects supplying both an upper-left and
a lower-left coordinate on the same axis with a ValueError naming that axis
(the x conflict is checked first), and succeeds whenever no axis carries
both forms. -/
theorem set_spatialreference_origin_conflict :
    ∀ (fetch : String → ℤ → String → Option String) (sr : SpatialReference)
      (delc : List ℝ) (xul yul xll yll : Option ℝ) (rot : ℝ),
      ((xul.isSome && xll.isSome) = true →
        SpatialReference.set_spatialreference fetch sr delc xul yul xll yll rot =
          Except.error (PyErr.valueError
            "Both xul and xll entered. Please enter either xul, yul or xll, yll.")) ∧
      ((xul.isSome && xll.isSome) = false → (yul.isSome && yll.isSome) = true →
        SpatialReference.set_spatialreference fetch sr delc xul yul xll yll rot =
          Except.error (PyErr.valueError
            "Both yul and yll entered. Please enter either xul, yul or xll, yll.")) ∧
      ((xul.isSome && xll.isSome) = false → (yul.isSome && yll.isSome) = false →
        (SpatialReference.set_spatialreference fetch sr delc xul yul xll yll
          rot).isOk = true) := by
  intro fetch sr delc xul yul xll yll rot
  refine ⟨?_, ?_, ?_⟩
  · intro h1
    simp [SpatialReference.set_spatialreference, h1]
  · intro h1 h2
    simp [SpatialReference.set_spatialreference, h1, h2]
  · intro h1 h2
    simp [SpatialReference.set_spatialreference, h1, h2, Except.isOk,
      Except.toBool]

/-- CLAIM C5, witness: at xul = 1 and xll = 3 both supplied, the x-axis
configuration error is raised. -/
theorem set_spatialreference_origin_conflict_witness :
    ((some (1 : ℝ)).isSome && (some (3 : ℝ)).isSome) = true ∧
    SpatialReference.set_spatialreference fetch0 sr2x2 [1, 1]
        (some 1) none (some 3) none 0 =
      Except.error (PyErr.valueError
        "Both xul and xll entered. Please enter either xul, yul or xll, yll.") :=
  ⟨rfl, (set_spatialreference_origin_conflict fetch0 sr2x2 [1, 1]
    (some 1) none (some 3) none 0).1 rfl⟩

/-- Appending an entry for a code makes it the code's current cached
text (later store lines shadow earlier ones). -/
theorem lookup_add_self (db : EpsgDB) (e : ℤ) (r : String) :
    (db.add e r).lookup e = some r := by
  simp [EpsgDB.lookup, EpsgDB.add, List.reverse_append, List.find?]

/-- CLAIM C9: when the local cache holds text for the code, getprj returns
that text and performs no remote lookup; the remote service is queried
exactly when the cache has no entry, and a successful remote result is both
returned and (with addlocalreference set, its default) written back into the
local cache. -/
theorem getprj_cache_first :
    ∀ (fetch : String → ℤ → String → Option String) (db : EpsgDB) (e : ℤ)
      (addl : Bool) (text : String),
      (∀ t, db.lookup e = some t →
        (getprj fetch db e addl text).prjtext = some t ∧
        (getprj fetch db e addl text).remoteCalled = false) ∧
      (db.lookup e = none →
        (getprj fetch db e addl text).remoteCalled = true ∧
        ∀ r, get_spatialreference fetch e text = some r →
          (getprj fetch db e addl text).prjtext = some r ∧
          (addl = true →
            (getprj fetch db e addl text).db.lookup e = some r)) := by
  intro fetch db e addl text
  constructor
  · intro t ht
    constructor
    · simp [getprj, ht]
    · simp [getprj, ht]
  · intro hn
    constructor
    · simp [getprj, hn]
    · intro r hr
      constructor
      · simp [getprj, hn, hr]
      · intro ha
        simp [getprj, hn, hr, ha, lookup_add_self]

/-- Concrete local cache holding text for code 3857 only. -/
def dbW : EpsgDB := ⟨[(3857, "CACHED WKT")]⟩

/-- CLAIM C9, witness: code 3857 is cached, and getprj (with no network)
returns the cached text without a remote call. -/
theorem getprj_cache_first_witness :
    EpsgDB.lookup dbW 3857 = some "CACHED WKT" ∧
    ((getprj fetch0 dbW 3857 true "esriwkt").prjtext = some "CACHED WKT" ∧
      (getprj fetch0 dbW 3857 true "esriwkt").remoteCalled = false) :=
  ⟨rfl, (getprj_cache_first fetch0 dbW 3857 true "esriwkt").1 "CACHED WKT" rfl⟩

/-- Rotating by theta degrees about a corner and then by -theta about the
same corner returns the original point. -/
theorem rotate_neg_rotate (th xo yo x y : ℝ) :
    rotate (rotate x y th xo yo).1 (rotate x y th xo yo).2 (-th) xo yo =
      (x, y) := by
  have hid := Real.sin_sq_add_cos_sq (th * Real.pi / 180)
  simp only [rotate, neg_mul, neg_div, Real.cos_neg, Real.sin_neg,
    Prod.mk.injEq]
  constructor
  · linear_combination (x - xo) * hid
  · linear_combination (y - yo) * hid

/-- CLAIM C1: for every state, every rotation in [0, 360) and every positive
length multiplier, the inverse transform applied to the forward transform of
any finite point returns that point (exact over real arithmetic). -/
theorem transform_round_trip :
    ∀ (sr : SpatialReference) (x y : ℝ),
      0 ≤ sr.rotation → sr.rotation < 360 → 0 < sr.length_multiplier →
      SpatialReference.transform sr
          (SpatialReference.transform sr x y false).1
          (SpatialReference.transform sr x y false).2 true = (x, y) := by
  intro sr x y _h0 _h1 hlm
  have hne : sr.length_multiplier ≠ 0 := ne_of_gt hlm
  simp only [SpatialReference.transform, Bool.not_false, Bool.not_true,
    Bool.false_eq_true, ite_true, ite_false, if_false]
  rw [rotate_neg_rotate]
  simp only [Prod.mk.injEq]
  constructor <;> field_simp

/-- On sr2x2 every unit setting is defaulted, so the derived length
multiplier is 1. -/
theorem sr2x2_length_multiplier : sr2x2.length_multiplier = 1 := rfl

/-- CLAIM C1, witness: on the concrete state sr2x2 (rotation 0, derived
length multiplier 1) the round trip returns (2, 3). -/
theorem transform_round_trip_witness :
    (0 ≤ sr2x2.rotation ∧ sr2x2.rotation < 360 ∧
      0 < sr2x2.length_multiplier) ∧
    SpatialReference.transform sr2x2
        (SpatialReference.transform sr2x2 2 3 false).1
        (SpatialReference.transform sr2x2 2 3 false).2 true = (2, 3) :=
  ⟨⟨by norm_num [sr2x2], by norm_num [sr2x2],
      by rw [sr2x2_length_multiplier]; exact zero_lt_one⟩,
    transform_round_trip sr2x2 2 3 (by norm_num [sr2x2])
      (by norm_num [sr2x2])
      (by rw [sr2x2_length_multiplier]; exact zero_lt_one)⟩

/-- CLAIM C6, counterexample: on the 2 by 2 unit grid with xll=0, yll=0,
rotation=0 and default units, the forward transform of the local point
(0.5, 0.5) is (0.5, 0.5), not (0.5, 1.5): with rotation 0 and length
multiplier 1 the transform is a pure translation by (xll, yll) = (0, 0). -/
theorem transform_half_half_not_one_point_five :
    SpatialReference.transform sr2x2 0.5 0.5 false ≠
      ((0.5 : ℝ), (1.5 : ℝ)) := by
  have hval : SpatialReference.transform sr2x2 0.5 0.5 false =
      ((0.5 : ℝ), (0.5 : ℝ)) := by
    simp only [SpatialReference.transform, Bool.not_false, ite_true,
      sr2x2_length_multiplier, rotate]
    norm_num [sr2x2, SpatialReference.xll, SpatialReference.yll]
  rw [hval]
  intro hcontra
  have h2 := congrArg Prod.snd hcontra
  norm_num at h2

/-- CLAIM C6, amended: on that grid the forward transform is the identity
(rotation 0, length multiplier 1, translation by (0, 0)), so local
(0.5, 0.5) maps to world (0.5, 0.5); the world point (0.5, 1.5) named by the
claim is the image of the center of cell (0, 0) (row 0 on the north edge),
whose local coordinates are (0.5, 1.5). -/
theorem transform_2x2_identity_and_cell00_center :
    SpatialReference.transform sr2x2 0.5 0.5 false =
      ((0.5 : ℝ), (0.5 : ℝ)) ∧
    SpatialReference.transform sr2x2
        (sr2x2.modelgrid.xcenters 0 0) (sr2x2.modelgrid.ycenters 0 0)
        false =
      ((0.5 : ℝ), (1.5 : ℝ)) := by
  constructor
  · simp only [SpatialReference.transform, Bool.not_false, ite_true,
      sr2x2_length_multiplier, rotate]
    norm_num [sr2x2, SpatialReference.xll, SpatialReference.yll]
  · simp only [SpatialReference.transform, Bool.not_false, ite_true,
      sr2x2_length_multiplier, rotate]
    norm_num [sr2x2, SpatialReference.xll, SpatialReference.yll,
      SMGrid.xcenters, SMGrid.ycenters]

/-- Both ravelled meshgrid index lists enumerate nrow * ncol cells. -/
theorem meshgrid_lengths (r c : ℕ) :
    (meshgrid_ii r c).length = r * c ∧ (meshgrid_jj r c).length = r * c := by
  constructor <;>
    simp [meshgrid_ii, meshgrid_jj, List.length_flatMap, Function.comp_def]

/-- The batched get_vertices call yields one ring per zipped index pair,
each ring being five points whose first and last entries coincide. -/
theorem get_vertices_batched_spec (xg yg : ℕ → ℕ → ℝ) (ii jj : List ℕ) :
    (get_vertices_batched xg yg ii jj).length = (ii.zip jj).length ∧
    ∀ ring ∈ get_vertices_batched xg yg ii jj,
      ring.length = 5 ∧ ring.head? = ring.getLast? := by
  constructor
  · simp [get_vertices_batched]
  · intro ring hring
    simp only [get_vertices_batched, List.mem_map, List.mem_range] at hring
    obtain ⟨k, hk, hringeq⟩ := hring
    obtain ⟨cell, hcell⟩ : ∃ cl, (ii.zip jj)[k]? = some cl :=
      ⟨(ii.zip jj)[k], List.getElem?_eq_getElem hk⟩
    rw [← hringeq]
    simp only [List.filterMap, List.get?_eq_getElem?, List.getElem?_map,
      hcell, Option.map_some]
    exact ⟨rfl, rfl⟩

/-- CLAIM C8: with the vertex cache unpopulated (as after construction or
any invalidating mutation), the vertices property of a structured grid of R
rows and C columns yields exactly R * C rings of exactly five points each,
the first point of every ring equal to its last. -/
theorem vertices_ring_structure (sr : SpatialReference)
    (h : sr._vertices = none) :
    (SpatialReference.vertices sr).length =
      sr.modelgrid.nrow * sr.modelgrid.ncol ∧
    ∀ ring ∈ SpatialReference.vertices sr,
      ring.length = 5 ∧ ring.head? = ring.getLast? := by
  have hv : SpatialReference.vertices sr =
      SpatialReference.computed_vertices sr := by
    simp [SpatialReference.vertices, h]
  rw [hv]
  unfold SpatialReference.computed_vertices
  have hspec := get_vertices_batched_spec sr.xedges sr.yedges
    (meshgrid_ii sr.modelgrid.nrow sr.modelgrid.ncol)
    (meshgrid_jj sr.modelgrid.nrow sr.modelgrid.ncol)
  refine ⟨?_, hspec.2⟩
  rw [hspec.1, List.length_zip,
    (meshgrid_lengths sr.modelgrid.nrow sr.modelgrid.ncol).1,
    (meshgrid_lengths sr.modelgrid.nrow sr.modelgrid.ncol).2, min_self]

/-- CLAIM C8, witness: on the freshly constructed 2 by 2 state the property
yields 2 * 2 rings of five closed points. -/
theorem vertices_ring_structure_witness :
    sr2x2._vertices = none ∧
    ((SpatialReference.vertices sr2x2).length =
        sr2x2.modelgrid.nrow * sr2x2.modelgrid.ncol ∧
      ∀ ring ∈ SpatialReference.vertices sr2x2,
        ring.length = 5 ∧ ring.head? = ring.getLast?) :=
  ⟨rfl, vertices_ring_structure sr2x2 rfl⟩

/-- CLAIM C10: transform on non-scalar input (forward or inverse) leaves
every array that existed on the heap before the call unchanged: the body
copies its arguments before applying the in-place scale, translation and
rotation, so all writes land on fresh heap entries. -/
theorem transform_arrays_frame (sr : SpatialReference) (inverse : Bool)
    (h : Heap) (xr yr k : ℕ) (hk : k < h.length) :
    ((SpatialReference.transform_arrays sr inverse h xr yr).1)[k]? =
      h[k]? := by
  have hne1 : h.length ≠ k := by omega
  have hne2 : h.length + 1 ≠ k := by omega
  cases inverse
  · simp only [SpatialReference.transform_arrays, Bool.not_false, ite_true]
    rw [List.getElem?_append_left
        (by simp only [List.length_set, List.length_append,
          List.length_cons, List.length_nil]; omega),
      List.getElem?_set_ne hne2, List.getElem?_set_ne hne1,
      List.getElem?_set_ne hne2, List.getElem?_set_ne hne1,
      List.getElem?_append_left hk]
  · simp only [SpatialReference.transform_arrays, Bool.not_true,
      Bool.false_eq_true, ite_false, if_false]
    have hne3 : (h ++ [h.getD xr [], h.getD yr []]).length ≠ k := by
      simp only [List.length_append, List.length_cons, List.length_nil]
      omega
    have hne4 : (h ++ [h.getD xr [], h.getD yr []]).length + 1 ≠ k := by
      simp only [List.length_append, List.length_cons, List.length_nil]
      omega
    rw [List.getElem?_set_ne hne4, List.getElem?_set_ne hne3,
      List.getElem?_set_ne hne4, List.getElem?_set_ne hne3,
      List.getElem?_append_left
        (by simp only [List.length_append, List.length_cons,
          List.length_nil]; omega),
      List.getElem?_append_left hk]

/-- CLAIM C10, witness: a concrete two-array heap is untouched by a forward
transform of its two arrays. -/
theorem transform_arrays_frame_witness :
    0 < ([[1, 2], [3]] : Heap).length ∧
    ((SpatialReference.transform_arrays sr2x2 false [[1, 2], [3]] 0 1).1)[0]? =
      ([[1, 2], [3]] : Heap)[0]? :=
  ⟨by simp, transform_arrays_frame sr2x2 false [[1, 2], [3]] 0 1 0 (by simp)⟩

end ReferenceClaims

end Flopy
